import Mathlib

/-!
Verification of the flood-monitoring dashboard script (`Streamlit_App.py`).

Python strings are modelled as `List Char` (`PyString`), so that slicing
(`s[:-4]`), character replacement and lexicographic comparison can be
reasoned about directly.  JSON scalar values are modelled by `Scalar`
(string, rational number, or null), flat JSON objects by association
lists (`Item`), and a pandas `DataFrame` by `Table`: an ordered list of
column names together with the ordered list of row objects.  A missing
key in a row object plays the role of pandas `NaN`, as does an explicit
`Scalar.null`.
-/

set_option synthInstance.maxHeartbeats 400000

namespace FloodApp

/-- A Python string, as a list of characters. -/
abbrev PyString := List Char

/-- Conversion from a Lean string literal to the `PyString` model. -/
def pys (s : String) : PyString := s.toList

/-- A scalar JSON value: string, number, or null. -/
inductive Scalar where
  | s : PyString → Scalar
  | n : Rat → Scalar
  | null : Scalar
deriving DecidableEq

/-- A flat JSON object (one row), as an association list from keys to scalars. -/
abbrev Item := List (PyString × Scalar)

/-- A JSON value, as far as the script inspects it: an object, an array,
or a scalar. -/
inductive Json where
  | obj : List (PyString × Json) → Json
  | arr : List Json → Json
  | scalar : Scalar → Json

/-- The keys of a row object. -/
def itemKeys (it : Item) : List PyString := it.map Prod.fst

/-- First-occurrence deduplication, as performed by pandas when it builds
the column index from a list of dicts. -/
def firstDedup : List PyString → List PyString
  | [] => []
  | k :: ks => k :: (firstDedup ks).filter (fun k2 => k2 ≠ k)

/-- A pandas DataFrame: ordered column names and ordered rows. -/
structure Table where
  cols : List PyString
  rows : List Item
deriving DecidableEq

/-- `pd.DataFrame(items)` on a list of flat objects: the columns are the
union of the observed keys (first-occurrence order) and the rows are the
objects in array order. -/
def pdDataFrame (items : List Item) : Table :=
  { cols := firstDedup (items.flatMap itemKeys), rows := items }

/-- Column access `t[k]`: `none` models the `KeyError` raised when the
column is absent; otherwise the cells in row order, a `none` cell
modelling `NaN` for a row object that lacks the key. -/
def Table.col (t : Table) (k : PyString) : Option (List (Option Scalar)) :=
  if k ∈ t.cols then some (t.rows.map (fun it => it.lookup k)) else none

/-- Reinterpret a JSON object as a flat row object; fails on any
non-scalar field. -/
def jsonFieldsToItem : List (PyString × Json) → Option Item
  | [] => some []
  | (k, Json.scalar v) :: rest => (jsonFieldsToItem rest).map (fun it => (k, v) :: it)
  | _ :: _ => none

/-- Reinterpret a JSON value as a flat row object. -/
def asItem : Json → Option Item
  | Json.obj fields => jsonFieldsToItem fields
  | _ => none

/-- Reinterpret a list of JSON values as a list of flat row objects. -/
def jsonListToItems : List Json → Option (List Item)
  | [] => some []
  | j :: rest =>
    match asItem j, jsonListToItems rest with
    | some it, some its => some (it :: its)
    | _, _ => none

/-- Reinterpret a JSON value as an array of flat row objects. -/
def asItems : Json → Option (List Item)
  | Json.arr js => jsonListToItems js
  | _ => none

/-- `json["items"]` followed by `pd.DataFrame(...)`: look up the
top-level field named `items` and read it as an array of row objects. -/
def getItems (j : Json) : Option (List Item) :=
  match j with
  | Json.obj fields => (fields.lookup (pys "items")).bind asItems
  | _ => none

/-- Embed a row object back into JSON, for stating hypotheses about
response bodies. -/
def itemToJson (it : Item) : Json :=
  Json.obj (it.map (fun kv => (kv.1, Json.scalar kv.2)))

/-- Embed a list of row objects back into a JSON array. -/
def itemsToJson (items : List Item) : Json :=
  Json.arr (items.map itemToJson)

/-- An HTTP response: a status code and a body, `none` when the body is
not parseable as JSON (`r.json()` raises there). -/
structure Response where
  status : Nat
  body : Option Json

/-- The network, as a function from URL to outcome; `.error ()` models a
network/transport failure raised inside `requests.get`. -/
def Network := PyString → Except Unit Response

/-- The ways a single `make_df` call can raise. -/
inductive FetchError where
  | network : FetchError
  | badJson : FetchError
  | missingItems : FetchError
deriving DecidableEq

/-- One uncached evaluation of the body of `make_df`:
`r = requests.get(url)`, `json = r.json()`, `df = pd.DataFrame(json["items"])`.
The status code of the response is never consulted. -/
def makeDf (net : Network) (url : PyString) : Except FetchError Table :=
  match net url with
  | .error _ => .error .network
  | .ok r =>
    match r.body with
    | none => .error .badJson
    | some j =>
      match getItems j with
      | none => .error .missingItems
      | some items => .ok (pdDataFrame items)

/-- The `st.cache_data` cache: successful results keyed by the literal
URL argument.  A call that raises stores nothing. -/
abbrev Cache := List (PyString × Table)

/-- The outcome of one call through the cache: the value returned (or
the error raised), the cache afterwards, and how many network calls the
call performed. -/
structure FetchResult where
  result : Except FetchError Table
  cache : Cache
  networkCalls : Nat

/-- `make_df(url)` as called through `@st.cache_data`: on a cache hit the
memoized Table is returned with no network round trip; on a miss the body
runs once and a successful result is stored under the URL. -/
def cachedMakeDf (net : Network) (c : Cache) (url : PyString) : FetchResult :=
  match c.lookup url with
  | some t => { result := .ok t, cache := c, networkCalls := 0 }
  | none =>
    match makeDf net url with
    | .ok t => { result := .ok t, cache := (url, t) :: c, networkCalls := 1 }
    | .error e => { result := .error e, cache := c, networkCalls := 1 }

/-! ### The 24-hour window timestamp

`last_24h_datetime = datetime.now() - timedelta(hours=24)` and
`url_formatted_dt = str(last_24h_datetime).replace(" ", "T")[:-4] + "Z"`.
An instant is modelled as an integer count of microseconds since the Unix
epoch; `str(datetime)` renders `YYYY-MM-DD HH:MM:SS` and appends
`.ffffff` exactly when the microsecond field is nonzero. -/

/-- Python single-character `str.replace`, character by character. -/
def replaceChar (a b : Char) (l : PyString) : PyString :=
  l.map (fun c => if c = a then b else c)

/-- Decimal digits of `n`, left-padded with zeros to width `w`. -/
def padNum (w n : Nat) : PyString :=
  let ds := Nat.toDigits 10 n
  List.replicate (w - ds.length) '0' ++ ds

/-- Gregorian date from a day count relative to 1970-01-01
(the standard era-based civil-from-days computation). -/
def civilFromDays (z0 : Int) : Int × Int × Int :=
  let z := z0 + 719468
  let era : Int := z.fdiv 146097
  let doe : Int := z - era * 146097
  let yoe : Int := (doe - doe / 1460 + doe / 36524 - doe / 146096) / 365
  let y : Int := yoe + era * 400
  let doy : Int := doe - (365 * yoe + yoe / 4 - yoe / 100)
  let mp : Int := (5 * doy + 2) / 153
  let d : Int := doy - (153 * mp + 2) / 5 + 1
  let m : Int := mp + (if mp < 10 then 3 else -9)
  (y + (if m ≤ 2 then 1 else 0), m, d)

/-- `str(d)` for a Python `datetime` at `t` microseconds since the epoch:
`YYYY-MM-DD HH:MM:SS`, with `.ffffff` appended only when the microsecond
field is nonzero. -/
def pyDatetimeStr (t : Int) : PyString :=
  let micro := (t.emod 1000000).toNat
  let totalSec := t.fdiv 1000000
  let secOfDay := (totalSec.emod 86400).toNat
  let days := totalSec.fdiv 86400
  let ymd := civilFromDays days
  padNum 4 ymd.1.toNat ++ '-' :: padNum 2 ymd.2.1.toNat ++ '-' :: padNum 2 ymd.2.2.toNat
    ++ ' ' :: padNum 2 (secOfDay / 3600) ++ ':' :: padNum 2 (secOfDay % 3600 / 60)
    ++ ':' :: padNum 2 (secOfDay % 60)
    ++ (if micro = 0 then [] else '.' :: padNum 6 micro)

/-- Microseconds in 24 hours. -/
def microPer24h : Int := 24 * 3600 * 1000000

/-- `last_24h_datetime`: the current instant minus 24 hours. -/
def last24h (nowMicro : Int) : Int := nowMicro - microPer24h

/-- `url_formatted_dt = str(last_24h_datetime).replace(" ", "T")[:-4] + "Z"`. -/
def urlFormattedDt (nowMicro : Int) : PyString :=
  let s := replaceChar ' ' 'T' (pyDatetimeStr (last24h nowMicro))
  s.take (s.length - 4) ++ [Char.ofNat 90]

/-! ### The view pipeline over the station registry -/

/-- The API root URL. -/
def apiRoot : PyString := pys "http://environment.data.gov.uk/flood-monitoring/"

/-- The station-registry endpoint `root + "id/stations"`. -/
def stationsApi : PyString := apiRoot ++ pys "id/stations"

/-- The hardcoded bad-record sentinel label (note the leading space). -/
def badLabel : PyString := pys " Huscote FAS"

/-- Whether a station row carries the sentinel label. -/
def isBadRow (it : Item) : Bool := it.lookup (pys "label") == some (Scalar.s badLabel)

/-- `stations_df[stations_df["label"] != " Huscote FAS"]`: keep every row
whose `label` cell differs from the sentinel (a missing or non-string
cell compares unequal and is kept, as in pandas). -/
def excludeBad (t : Table) : Table :=
  { t with rows := t.rows.filter (fun it => !isBadRow it) }

/-- The rows whose `label` cell is exactly the string `sel`, in order:
the rows selected by the mask `stations_df["label"] == station_select`. -/
def matchingRows (t : Table) (sel : PyString) : List Item :=
  t.rows.filter (fun it => it.lookup (pys "label") == some (Scalar.s sel))

/-- `stations_df.loc[stations_df["label"] == station_select]["notation"].iloc[0].replace("_", "")`:
`none` models the exception raised when no row matches (`.iloc[0]` on an
empty selection) or when the first match has no string in `notation`. -/
def stationId (t : Table) (sel : PyString) : Option PyString :=
  match matchingRows t sel with
  | [] => none
  | it :: _ =>
    match it.lookup (pys "notation") with
    | some (Scalar.s nota) => some (nota.filter (fun c => c ≠ '_'))
    | _ => none

/-- `filtered_by_station = root + "id/stations/" + station_id + "/readings" + "?since=" + url_formatted_dt`. -/
def filteredByStation (sid : PyString) (since : PyString) : PyString :=
  apiRoot ++ pys "id/stations/" ++ sid ++ pys "/readings" ++ pys "?since=" ++ since

/-- Column projection `t[ks]`: `none` models the `KeyError` when a
requested column is absent; otherwise each row is materialized on exactly
the requested columns, missing keys becoming `null` cells (pandas `NaN`). -/
def selectCols (t : Table) (ks : List PyString) : Option Table :=
  if ∀ k ∈ ks, k ∈ t.cols then
    some { cols := ks,
           rows := t.rows.map (fun it => ks.map (fun k => (k, (it.lookup k).getD Scalar.null))) }
  else none

/-- `t.rename(columns={old: new})` on column names and row keys. -/
def renameCol (t : Table) (old new : PyString) : Table :=
  { cols := t.cols.map (fun k => if k = old then new else k),
    rows := t.rows.map (fun it => it.map (fun kv => if kv.1 = old then (new, kv.2) else kv)) }

/-- `t.dropna()`: drop every row with a `null` (`NaN`) cell. -/
def dropna (t : Table) : Table :=
  { t with rows := t.rows.filter (fun it => it.all (fun kv => kv.2 ≠ Scalar.null)) }

/-- `map_data = stations_df[["lat", "long"]].rename(columns={"long": "lon"}).dropna()`. -/
def mapData (t : Table) : Option Table :=
  (selectCols t [pys "lat", pys "long"]).map
    (fun s => dropna (renameCol s (pys "long") (pys "lon")))

/-- Whether a station row has both coordinates present (its `lat` and
`long` cells exist and are non-null). -/
def hasCoords (it : Item) : Bool :=
  !((it.lookup (pys "lat")).getD Scalar.null == Scalar.null)
    && !((it.lookup (pys "long")).getD Scalar.null == Scalar.null)

/-! ### Station selector -/

/-- Python `str.lower`, character by character. -/
def pyLower (s : PyString) : PyString := s.map Char.toLower

/-- Worker for `str.title`: uppercase an alphabetic character that
follows a non-alphabetic one, lowercase the other alphabetic characters. -/
def pyTitleAux : Bool → PyString → PyString
  | _, [] => []
  | prevAlpha, c :: rest =>
    (if c.isAlpha then (if prevAlpha then c.toLower else c.toUpper) else c)
      :: pyTitleAux c.isAlpha rest

/-- Python `str.title`. -/
def pyTitle (s : PyString) : PyString := pyTitleAux false s

/-- The `format_func` of the selector: `lambda a: a.lower().title()`. -/
def formatFunc (a : PyString) : PyString := pyTitle (pyLower a)

/-- The string carried by the `label` cell of a row, when there is one. -/
def labelOfRow (it : Item) : Option PyString :=
  match it.lookup (pys "label") with
  | some (Scalar.s l) => some l
  | _ => none

/-- The string values of the `label` column. -/
def labelStrings (t : Table) : List PyString :=
  t.rows.filterMap labelOfRow

/-- `stations_df["label"].sort_values().unique()`: sort the labels, then
deduplicate keeping first occurrences. -/
def stationOptions (t : Table) : List PyString :=
  firstDedup (List.insertionSort (fun a b => a ≤ b) (labelStrings t))

/-- The raw value returned by `st.selectbox` for the choice at index `i`:
the unformatted option itself. -/
def selectboxValue (opts : List PyString) (i : Nat) : Option PyString := opts.get? i

/-- What `st.selectbox` displays for the choice at index `i`: the option
passed through `format_func`. -/
def selectboxDisplay (opts : List PyString) (i : Nat) : Option PyString :=
  (opts.get? i).map formatFunc

/-! ### The readings stage -/

/-- The ways the readings stage can raise. -/
inductive PipeError where
  | fetch : FetchError → PipeError
  | keyError : PipeError
  | parseError : PipeError
deriving DecidableEq

/-- Overwrite column `k` of every row with the corresponding value of
`vals` (the assignment `filtered_df["dateTime"] = ...`). -/
def setColumn (t : Table) (k : PyString) (vals : List Scalar) : Table :=
  { t with
    rows := (t.rows.zip vals).map
      (fun p => (p.1.filter (fun kv => kv.1 ≠ k)) ++ [(k, p.2)]) }

/-- Lines 83-87: `filtered_df = make_df(filtered_by_station)` followed by
`filtered_df["dateTime"] = pd.to_datetime(filtered_df["dateTime"])`.
`parse` abstracts `pd.to_datetime` on one cell; the stage fails with
`keyError` before any parsing when the table has no `dateTime` column. -/
def loadReadings (parse : Option Scalar → Option Scalar) (net : Network) (url : PyString) :
    Except PipeError Table :=
  match makeDf net url with
  | .error e => .error (.fetch e)
  | .ok t =>
    match t.col (pys "dateTime") with
    | none => .error .keyError
    | some cells =>
      match cells.mapM parse with
      | none => .error .parseError
      | some vals => .ok (setColumn t (pys "dateTime") vals)

/-! ### The projected map row -/

/-- The row a station contributes to `map_data` before `dropna`: its
`lat` cell and its `long` cell renamed to `lon`, missing cells
materialized as `null`. -/
def coordRow (it : Item) : Item :=
  [(pys "lat", (it.lookup (pys "lat")).getD Scalar.null),
   (pys "lon", (it.lookup (pys "long")).getD Scalar.null)]

/-! ### Concrete fixtures used by witnesses and counterexamples -/

/-- A network answering every URL with status 200 and an empty `items` array. -/
def netOkW : Network := fun _ => .ok ⟨200, some (Json.obj [(pys "items", Json.arr [])])⟩

/-- A network answering every URL with a non-2xx status but a well-formed
JSON body carrying an `items` array. -/
def netStatus500 : Network := fun _ => .ok ⟨500, some (Json.obj [(pys "items", Json.arr [])])⟩

/-- A network on which every request fails with a transport error. -/
def netFailW : Network := fun _ => .error ()

/-- A network answering with a body that is not parseable JSON. -/
def netNoJsonW : Network := fun _ => .ok ⟨200, none⟩

/-- A network answering with valid JSON that has no top-level `items` field. -/
def netNoItemsW : Network := fun _ => .ok ⟨200, some (Json.arr [])⟩

/-- Two one-column rows with different keys. -/
def itemsW : List Item := [[(pys "a", Scalar.n 1)], [(pys "b", Scalar.n 2)]]

/-- A network answering with an `items` array holding `itemsW`. -/
def netItemsW : Network := fun _ => .ok ⟨200, some (Json.obj [(pys "items", itemsToJson itemsW)])⟩

/-- A three-station registry of which exactly one row carries the
sentinel label. -/
def registryW : Table := pdDataFrame
  [[(pys "label", Scalar.s (pys "Bourton")), (pys "lat", Scalar.n 1)],
   [(pys "label", Scalar.s (pys " Huscote FAS"))],
   [(pys "label", Scalar.s (pys "Abbey")), (pys "notation", Scalar.s (pys "14_TH"))]]

/-- The single station row of the registry of the C6 scenario. -/
def rowC6 : Item :=
  [(pys "label", Scalar.s (pys "A")), (pys "notation", Scalar.s (pys "S_1")),
   (pys "lat", Scalar.n 1), (pys "long", Scalar.n 2)]

/-- A one-station registry whose station has an underscore in `notation`. -/
def registryC6 : Table := pdDataFrame [rowC6]

/-- A registry with one fully located station and one without a `long`
coordinate. -/
def regW7 : Table := pdDataFrame
  [[(pys "label", Scalar.s (pys "A")), (pys "lat", Scalar.n 1), (pys "long", Scalar.n 2)],
   [(pys "label", Scalar.s (pys "B")), (pys "lat", Scalar.n 3)]]

/-! ## Helper lemmas -/

theorem mem_firstDedup {a : PyString} : ∀ {l : List PyString}, a ∈ firstDedup l ↔ a ∈ l := by
  intro l
  induction l with
  | nil => simp [firstDedup]
  | cons k ks ih =>
    by_cases hak : a = k
    · subst hak; simp [firstDedup]
    · simp [firstDedup, List.mem_filter, hak, ih]

theorem firstDedup_sublist : ∀ l : List PyString, List.Sublist (firstDedup l) l := by
  intro l
  induction l with
  | nil => simp [firstDedup]
  | cons k ks ih =>
    rw [firstDedup]
    exact ((List.filter_sublist _).trans ih).cons₂ k

theorem nodup_firstDedup : ∀ l : List PyString, (firstDedup l).Nodup := by
  intro l
  induction l with
  | nil => simp [firstDedup]
  | cons k ks ih =>
    rw [firstDedup, List.nodup_cons]
    exact ⟨by simp [List.mem_filter], ih.filter _⟩

theorem length_filter_add_not (p : Item → Bool) (l : List Item) :
    (l.filter p).length + (l.filter (fun a => !p a)).length = l.length := by
  induction l with
  | nil => rfl
  | cons a l ih => cases h : p a <;> simp [List.filter_cons, h, ← ih] <;> omega

theorem jsonFieldsToItem_map (it : Item) :
    jsonFieldsToItem (it.map (fun kv => (kv.1, Json.scalar kv.2))) = some it := by
  induction it with
  | nil => rfl
  | cons kv rest ih =>
    obtain ⟨k, v⟩ := kv
    simp [jsonFieldsToItem, ih]

theorem asItem_itemToJson (it : Item) : asItem (itemToJson it) = some it := by
  simp [asItem, itemToJson, jsonFieldsToItem_map]

theorem jsonListToItems_map (its : List Item) :
    jsonListToItems (its.map itemToJson) = some its := by
  induction its with
  | nil => rfl
  | cons it rest ih => simp [jsonListToItems, asItem_itemToJson, ih]

theorem asItems_itemsToJson (its : List Item) : asItems (itemsToJson its) = some its := by
  simp [asItems, itemsToJson, jsonListToItems_map]

/-! ## Claims -/

/-- C1: for every URL string, a second call of the cached `make_df` with
the identical string performs no further network call and returns the
previously materialized Table, so the two calls together perform exactly
one network call; two distinct URL strings each trigger a fresh fetch. -/
theorem make_df_memoization (net : Network) (u u1 u2 : PyString) (t : Table)
    (hok : makeDf net u = .ok t) (hne : u1 ≠ u2) :
    (cachedMakeDf net [] u).networkCalls = 1 ∧
    (cachedMakeDf net [] u).result = .ok t ∧
    (cachedMakeDf net (cachedMakeDf net [] u).cache u).networkCalls = 0 ∧
    (cachedMakeDf net (cachedMakeDf net [] u).cache u).result = .ok t ∧
    (cachedMakeDf net [] u1).networkCalls = 1 ∧
    (cachedMakeDf net (cachedMakeDf net [] u1).cache u2).networkCalls = 1 := by
  have h1 : cachedMakeDf net [] u =
      { result := .ok t, cache := [(u, t)], networkCalls := 1 } := by
    simp [cachedMakeDf, List.lookup, hok]
  have hne2 : (u2 == u1) = false := beq_eq_false_iff_ne.mpr (Ne.symm hne)
  refine ⟨by rw [h1], by rw [h1], ?_, ?_, ?_, ?_⟩
  · rw [h1]; simp [cachedMakeDf, List.lookup]
  · rw [h1]; simp [cachedMakeDf, List.lookup]
  · cases h : makeDf net u1 <;> simp [cachedMakeDf, List.lookup, h]
  · cases h : makeDf net u1 <;> cases h2 : makeDf net u2 <;>
      simp [cachedMakeDf, List.lookup, h, h2, hne2]

/-- Witness for C1 at a concrete network and the URL strings "a", "b". -/
theorem make_df_memoization_witness :
    (cachedMakeDf netOkW [] (pys "a")).networkCalls = 1 ∧
    (cachedMakeDf netOkW (cachedMakeDf netOkW [] (pys "a")).cache (pys "a")).networkCalls = 0 ∧
    (cachedMakeDf netOkW (cachedMakeDf netOkW [] (pys "a")).cache (pys "a")).result
      = .ok (pdDataFrame []) ∧
    (cachedMakeDf netOkW (cachedMakeDf netOkW [] (pys "a")).cache (pys "b")).networkCalls = 1 := by
  obtain ⟨h1, h2, h3, h4, h5, h6⟩ :=
    make_df_memoization netOkW (pys "a") (pys "a") (pys "b") (pdDataFrame []) rfl (by decide)
  exact ⟨h1, h3, h4, h6⟩

/-- C3 counterexample: the script never inspects the HTTP status code, so
a response with status 500 whose body is valid JSON with an `items` array
makes `make_df` succeed rather than fail. -/
theorem make_df_ignores_status :
    netStatus500 (pys "u")
      = .ok { status := 500, body := some (Json.obj [(pys "items", Json.arr [])]) } ∧
    makeDf netStatus500 (pys "u") = .ok { cols := [], rows := [] } :=
  ⟨rfl, rfl⟩

/-- C3 (amended): a network/transport failure and a malformed JSON body or
missing `items` field each make `make_df` fail with an error that
propagates to the caller, with no retry and no partial result; the HTTP
status code is never inspected, so it has no influence on the outcome. -/
theorem make_df_error_propagation (net : Network) (u : PyString) :
    (net u = .error () → makeDf net u = .error .network) ∧
    (∀ s, net u = .ok ⟨s, none⟩ → makeDf net u = .error .badJson) ∧
    (∀ s j, net u = .ok ⟨s, some j⟩ → getItems j = none →
      makeDf net u = .error .missingItems) ∧
    (∀ s1 s2 b v, makeDf (fun _ => .ok ⟨s1, b⟩) v = makeDf (fun _ => .ok ⟨s2, b⟩) v) := by
  refine ⟨fun h => by simp [makeDf, h], fun s h => by simp [makeDf, h],
    fun s j h hj => by simp [makeDf, h, hj], fun s1 s2 b v => ?_⟩
  cases b with
  | none => rfl
  | some j => cases hj : getItems j <;> simp [makeDf, hj]

/-- Witness for C3: each failure condition exercised on a concrete network. -/
theorem make_df_error_propagation_witness :
    makeDf netFailW (pys "u") = .error .network ∧
    makeDf netNoJsonW (pys "u") = .error .badJson ∧
    makeDf netNoItemsW (pys "u") = .error .missingItems :=
  ⟨(make_df_error_propagation netFailW (pys "u")).1 rfl,
   (make_df_error_propagation netNoJsonW (pys "u")).2.1 200 rfl,
   (make_df_error_propagation netNoItemsW (pys "u")).2.2.1 200 (Json.arr []) rfl rfl⟩

/-- C2: when the response body is a JSON object whose `items` field is an
array of flat objects, `make_df` returns the Table whose column set is
exactly the union of the keys present in the item objects and whose rows
are the items in array order. -/
theorem make_df_tabulation (net : Network) (u : PyString) (s0 : Nat)
    (fields : List (PyString × Json)) (its : List Item)
    (hnet : net u = .ok ⟨s0, some (Json.obj fields)⟩)
    (hitems : fields.lookup (pys "items") = some (itemsToJson its)) :
    makeDf net u = .ok (pdDataFrame its) ∧
    (pdDataFrame its).rows = its ∧
    (∀ k, k ∈ (pdDataFrame its).cols ↔ ∃ it ∈ its, k ∈ itemKeys it) := by
  refine ⟨by simp [makeDf, hnet, getItems, hitems, asItems_itemsToJson], rfl, ?_⟩
  intro k
  simp [pdDataFrame, mem_firstDedup, List.mem_flatMap]

/-- Witness for C2 at a concrete network whose `items` array holds two
one-key objects with distinct keys. -/
theorem make_df_tabulation_witness :
    makeDf netItemsW (pys "u") = .ok (pdDataFrame itemsW) ∧
    (pdDataFrame itemsW).rows = itemsW ∧
    (pdDataFrame itemsW).cols = [pys "a", pys "b"] := by
  obtain ⟨h1, h2, h3⟩ := make_df_tabulation netItemsW (pys "u") 200
    [(pys "items", itemsToJson itemsW)] itemsW rfl rfl
  exact ⟨h1, h2, by decide⟩

/-- C5: when exactly one registry row carries the sentinel label, the
exclusion step keeps every other row, drops exactly that one, and the row
count decreases by one. -/
theorem exclusion_removes_exactly_bad (t : Table)
    (h : (t.rows.filter (fun it => isBadRow it)).length = 1) :
    (excludeBad t).rows.length = t.rows.length - 1 ∧
    (excludeBad t).cols = t.cols ∧
    (∀ it, it ∈ (excludeBad t).rows ↔ it ∈ t.rows ∧ isBadRow it = false) := by
  refine ⟨?_, rfl, ?_⟩
  · have htot := length_filter_add_not (fun it => isBadRow it) t.rows
    rw [h] at htot
    simp only [excludeBad]
    omega
  · intro it
    simp [excludeBad, List.mem_filter]

/-- Witness for C5 at a three-row registry with one sentinel row. -/
theorem exclusion_witness :
    (excludeBad registryW).rows.length = registryW.rows.length - 1 :=
  (exclusion_removes_exactly_bad registryW (by decide)).1

/-- C6: the derived station identifier is the `notation` of the first row
whose `label` equals the selection, with every underscore removed, and
the readings URL is the root followed by the stations path, the
identifier, and the since query. -/
theorem station_id_and_url (t : Table) (sel nota : PyString) (it : Item) (rest : List Item)
    (h1 : matchingRows t sel = it :: rest)
    (h2 : it.lookup (pys "notation") = some (Scalar.s nota)) :
    stationId t sel = some (nota.filter (fun c => c ≠ '_')) ∧
    (∀ since, filteredByStation (nota.filter (fun c => c ≠ '_')) since =
      apiRoot ++ pys "id/stations/" ++ nota.filter (fun c => c ≠ '_')
        ++ pys "/readings?since=" ++ since) := by
  constructor
  · simp [stationId, h1, h2]
  · intro since
    have hbc : pys "/readings" ++ pys "?since=" = pys "/readings?since=" := by decide
    rw [filteredByStation, ← hbc]
    simp [List.append_assoc]

/-- Witness for C6: the spec scenario with label A and an underscored
identifier S_1 yields the identifier S1 and the expected readings URL. -/
theorem station_id_witness :
    stationId registryC6 (pys "A") = some (pys "S1") ∧
    filteredByStation (pys "S1") (pys "2024Z") =
      apiRoot ++ pys "id/stations/" ++ pys "S1" ++ pys "/readings?since=" ++ pys "2024Z" := by
  obtain ⟨h1, h2⟩ := station_id_and_url registryC6 (pys "A") (pys "S_1") rowC6 []
    (by decide) (by decide)
  have hf : (pys "S_1").filter (fun c => c ≠ '_') = pys "S1" := by decide
  constructor
  · rw [h1, hf]
  · have h3 := h2 (pys "2024Z")
    rw [hf] at h3
    exact h3

theorem labelOfRow_eq_some {it : Item} {l : PyString} :
    labelOfRow it = some l ↔ it.lookup (pys "label") = some (Scalar.s l) := by
  unfold labelOfRow
  cases h : it.lookup (pys "label") with
  | none => simp
  | some v => cases v <;> simp

theorem mem_stationOptions {t : Table} {l : PyString} :
    l ∈ stationOptions t ↔ ∃ it ∈ t.rows, it.lookup (pys "label") = some (Scalar.s l) := by
  rw [stationOptions, mem_firstDedup, (List.perm_insertionSort _ _).mem_iff]
  simp [labelStrings, List.mem_filterMap, labelOfRow_eq_some]

/-- C8: the selector offers exactly the distinct label values in
ascending alphabetical order; every option is displayed lower-cased then
title-cased, but the value the selection returns is the raw label. -/
theorem station_selector_options (t : Table) :
    List.Sorted (fun a b : PyString => a ≤ b) (stationOptions t) ∧
    (stationOptions t).Nodup ∧
    (∀ l, l ∈ stationOptions t ↔
      ∃ it ∈ t.rows, it.lookup (pys "label") = some (Scalar.s l)) ∧
    (∀ i, selectboxValue (stationOptions t) i = (stationOptions t).get? i) ∧
    (∀ i, selectboxDisplay (stationOptions t) i
      = ((stationOptions t).get? i).map (fun a => pyTitle (pyLower a))) := by
  refine ⟨?_, nodup_firstDedup _, fun l => mem_stationOptions, fun i => rfl, fun i => rfl⟩
  exact List.Pairwise.sublist (firstDedup_sublist _) (List.sorted_insertionSort _ _)

/-- C9: every label offered by the selector has at least one matching row
in the registry Table, so the first-match extraction never hits the
empty-selection error branch. -/
theorem selected_label_has_match (t : Table) (sel : PyString)
    (h : sel ∈ stationOptions t) : matchingRows t sel ≠ [] := by
  obtain ⟨it, hmem, hl⟩ := mem_stationOptions.mp h
  have hin : it ∈ matchingRows t sel := by
    rw [matchingRows, List.mem_filter]
    exact ⟨hmem, by simp [hl]⟩
  intro hnil
  rw [hnil] at hin
  exact List.not_mem_nil it hin

/-- Witness for C9 at a concrete registry and one of its own labels. -/
theorem selected_label_witness : matchingRows registryW (pys "Abbey") ≠ [] :=
  selected_label_has_match registryW (pys "Abbey") (by decide)

theorem dropnaPred_coordRow (it : Item) :
    ((coordRow it).all fun kv => kv.2 ≠ Scalar.null) = hasCoords it := by
  rcases ha : (it.lookup (pys "lat")).getD Scalar.null with x | x | _ <;>
    rcases hb : (it.lookup (pys "long")).getD Scalar.null with y | y | _ <;>
      simp [coordRow, hasCoords, ha, hb]

/-- C7: the map-display subset keeps exactly the rows with both
coordinates present (a row missing either is dropped from the map only),
while the registry Table used for station selection is unchanged: the
label of every coordinate-less row is still offered by the selector. -/
theorem map_data_drops_missing_coords (t : Table)
    (hlat : pys "lat" ∈ t.cols) (hlong : pys "long" ∈ t.cols) :
    mapData t = some { cols := [pys "lat", pys "lon"],
                       rows := (t.rows.filter hasCoords).map coordRow } ∧
    (∀ it ∈ t.rows, hasCoords it = false →
      coordRow it ∉ (t.rows.filter hasCoords).map coordRow) ∧
    (∀ it ∈ t.rows, ∀ l, it.lookup (pys "label") = some (Scalar.s l) →
      l ∈ stationOptions t) := by
  have hne : pys "lat" ≠ pys "long" := by decide
  have hcond : ∀ k ∈ [pys "lat", pys "long"], k ∈ t.cols := by
    intro k hk
    simp only [List.mem_cons, List.not_mem_nil, or_false] at hk
    rcases hk with rfl | rfl
    · exact hlat
    · exact hlong
  have hsel : selectCols t [pys "lat", pys "long"] =
      some { cols := [pys "lat", pys "long"],
             rows := t.rows.map (fun it => [pys "lat", pys "long"].map
               (fun k => (k, (it.lookup k).getD Scalar.null))) } := by
    rw [selectCols, if_pos hcond]
  have hfun : ((fun it : Item =>
        List.map (fun kv => if kv.1 = pys "long" then (pys "lon", kv.2) else kv) it) ∘
      (fun it : Item =>
        List.map (fun k => (k, (List.lookup k it).getD Scalar.null)) [pys "lat", pys "long"]))
      = coordRow := by
    funext it
    simp [Function.comp, coordRow, hne]
  refine ⟨?_, ?_, ?_⟩
  · rw [mapData, hsel]
    simp only [Option.map_some']
    congr 1
    simp only [renameCol, dropna, List.map_map]
    rw [Table.mk.injEq]
    refine ⟨by simp [hne], ?_⟩
    rw [hfun, List.filter_map]
    congr 1
    refine List.filter_congr ?_
    intro a _
    exact dropnaPred_coordRow a
  · intro it hmem hC hin
    rw [List.mem_map] at hin
    obtain ⟨it2, hit2, heq⟩ := hin
    rw [List.mem_filter] at hit2
    have h2 : hasCoords it2 = true := hit2.2
    have h3 : hasCoords it = hasCoords it2 := by
      rw [← dropnaPred_coordRow, ← dropnaPred_coordRow, heq]
    rw [hC, h2] at h3
    exact Bool.false_ne_true h3
  · intro it hmem l hl
    exact mem_stationOptions.mpr ⟨it, hmem, hl⟩

/-- Witness for C7: a registry where one station lacks the `long`
coordinate keeps only the fully located station on the map. -/
theorem map_data_witness :
    mapData regW7 = some { cols := [pys "lat", pys "lon"],
                           rows := [[(pys "lat", Scalar.n 1), (pys "lon", Scalar.n 2)]] } := by
  rw [(map_data_drops_missing_coords regW7 (by decide) (by decide)).1]
  decide

/-- C4 (code evaluation at the failing input): at a wall-clock instant
with microsecond zero the Python default rendering has no fractional
part, so the slice that is meant to trim microseconds instead cuts into
the time fields: the formatted window start for now = 2024-01-02
12:00:00.000000 is the malformed 2024-01-01T12:0Z, not an ISO-8601
rendering truncated to second or sub-second precision; for comparison, a
nonzero microsecond gives the well-formed centisecond rendering. -/
theorem url_formatted_dt_zero_micro :
    urlFormattedDt 1704196800000000 = pys "2024-01-01T12:0Z" ∧
    urlFormattedDt 1704196800123456 = pys "2024-01-01T12:00:00.12Z" := by
  constructor <;> decide

/-- C10: a readings response whose `items` field is an empty array yields
a Table with no columns at all, so the later access to the `dateTime`
column raises and the readings stage aborts with an error instead of
rendering anything. -/
theorem empty_readings_abort (parse : Option Scalar → Option Scalar) (net : Network)
    (u : PyString) (s0 : Nat) (fields : List (PyString × Json))
    (hnet : net u = .ok ⟨s0, some (Json.obj fields)⟩)
    (hitems : fields.lookup (pys "items") = some (Json.arr [])) :
    makeDf net u = .ok { cols := [], rows := [] } ∧
    loadReadings parse net u = .error .keyError := by
  have hm : makeDf net u = .ok { cols := [], rows := [] } := by
    simp only [makeDf, hnet, getItems, hitems, Option.some_bind]
    rfl
  refine ⟨hm, ?_⟩
  simp only [loadReadings, hm]
  rfl

/-- Witness for C10 at a concrete network answering with an empty
`items` array. -/
theorem empty_readings_witness :
    loadReadings (fun c => c) netOkW (pys "u") = .error .keyError :=
  (empty_readings_abort (fun c => c) netOkW (pys "u") 200 [(pys "items", Json.arr [])]
    rfl rfl).2

end FloodApp
